import Mathlib

/-!
Formal model of the x402_oracle payment-verification stack.

This file gives a shallow embedding, in Lean, of the verification core of the
repository:

* `src/lib/verify-payment.ts` — the on-chain payment verifier (`verifyPayment`,
  `findUSDCTransfer`, the module-level `usedSignatures` replay set);
* `src/app/api/reputation/route.ts` — the route handler's signature
  extraction and structural check (the part that decides whether
  `verifyPayment`, and hence the ledger fetch, is ever invoked);
* `src/lib/AgentWallet.ts` — the client-side `pay` flow
  (`parsePaymentRequirements`, the budget guard, and the status-code
  bookkeeping of the returned `PaymentResponse`).

Modelling conventions:

* JavaScript numbers that hold token quantities in human units are modelled as
  `ℚ` (their arithmetic in the reachable code paths — `0.05 * 1_000_000`,
  comparisons against integer tolerances — is exact, so the rational model
  coincides with the float semantics there); raw on-chain amounts
  (`BigInt(uiTokenAmount.amount)`) are modelled as `Int`.
* The module-level mutable `usedSignatures : Set<string>` is passed explicitly:
  `verifyPayment` takes the current insertion-ordered set (a `List String`) and
  returns the updated one alongside its result.
* The two effectful inputs of `verifyPayment` — the wall clock
  (`Date.now() / 1000`) and the RPC fetch `getParsedTransaction` — are passed
  as parameters (`now : Int`, `fetch : FetchOutcome`); a thrown RPC error is
  `FetchOutcome.rpcError`, a `null` result is `FetchOutcome.fetched none`.
* Each `return` site that produces an error message is tagged with a
  `VerifyError` constructor naming that site; the interpolated message strings
  themselves carry no additional decision-relevant data.
* In `AgentWallet.pay`, the three network-bound steps (initial fetch, the
  `sendUSDCPayment` call, the paid retry fetch) are given by trace parameters;
  `pay` additionally returns a `Bool` recording whether `sendUSDCPayment` was
  invoked at all, so "no transfer attempted" is expressible.
-/

namespace X402

/-- Entry of `preTokenBalances` / `postTokenBalances` of a parsed Solana
transaction: account index, mint, (optional) owner, and the raw integer token
amount (`BigInt(uiTokenAmount.amount)`). -/
structure TokenBalance where
  accountIndex : Nat
  mint : String
  owner : Option String
  amount : Int
deriving DecidableEq

/-- Parsed content of an instruction, as inspected by `findUSDCTransfer`
(verify-payment.ts lines 186–201): a `transfer` or `transferChecked`
SPL-token instruction (each carrying the `info.destination` field the code
reads but never uses downstream, and for `transferChecked` also `info.mint`),
or any other parsed instruction. -/
inductive ParsedIx where
  | transfer (destination : String)
  | transferChecked (mint : String) (destination : String)
  | other
deriving DecidableEq

/-- An instruction of the transaction message.  `parsed = none` models an
instruction without a `parsed` field (a partially-decoded instruction). -/
structure Instruction where
  program : String
  parsed : Option ParsedIx
deriving DecidableEq

/-- The `meta` part of a parsed transaction: the on-chain error flag
(truthiness of `meta.err`) and the two balance snapshots. -/
structure TxMeta where
  err : Bool
  preTokenBalances : List TokenBalance
  postTokenBalances : List TokenBalance
deriving DecidableEq

/-- A `ParsedTransactionWithMeta` as consumed by `verifyPayment`:
`blockTime` (optional unix seconds), `slot`, the instruction list
(`tx.transaction.message.instructions`), and the optional `meta`. -/
structure ParsedTransactionWithMeta where
  blockTime : Option Int
  slot : Nat
  instructions : List Instruction
  meta : Option TxMeta
deriving DecidableEq

/-- Result record of `findUSDCTransfer` (interface `TransferSearchResult`). -/
structure TransferSearchResult where
  found : Bool
  error : Option String := none
  sender : Option String := none
  receiver : Option String := none
  amount : Option Int := none
deriving DecidableEq

/-- The `preTokenBalances` list of a transaction, defaulting to `[]` when
`meta` is absent (`tx.meta?.preTokenBalances || []`). -/
def preOf (tx : ParsedTransactionWithMeta) : List TokenBalance :=
  match tx.meta with
  | some m => m.preTokenBalances
  | none => []

/-- The `postTokenBalances` list of a transaction, defaulting to `[]` when
`meta` is absent (`tx.meta?.postTokenBalances || []`). -/
def postOf (tx : ParsedTransactionWithMeta) : List TokenBalance :=
  match tx.meta with
  | some m => m.postTokenBalances
  | none => []

/-- Truthiness of `tx.meta?.err`. -/
def metaErr (tx : ParsedTransactionWithMeta) : Bool :=
  match tx.meta with
  | some m => m.err
  | none => false

/-- Raw pre-balance of the account with the given index:
`preBalances.find(p => p.accountIndex === idx)`, `0` when absent
(verify-payment.ts lines 261–265). -/
def preAmountFor (pre : List TokenBalance) (idx : Nat) : Int :=
  match pre.find? (fun p => p.accountIndex == idx) with
  | some p => p.amount
  | none => 0

/-- Raw post-balance of the account with the given index:
`postBalances.find(p => p.accountIndex === preB.accountIndex)`, `0` when
absent (verify-payment.ts lines 274–280). -/
def postAmountFor (post : List TokenBalance) (idx : Nat) : Int :=
  match post.find? (fun p => p.accountIndex == idx) with
  | some p => p.amount
  | none => 0

/-- Sender-attribution scan of `findUSDCTransfer` (verify-payment.ts lines
271–287): the first `preTokenBalances` entry of the expected mint, owned by
someone other than the expected receiver, whose balance decreased by exactly
`delta`; its (optional) owner is the attributed sender
(`sender = preB.owner ?? undefined`). -/
def findSender (pre post : List TokenBalance) (usdcMint expectedReceiver : String)
    (delta : Int) : Option String :=
  match pre.find? (fun preB =>
      preB.mint == usdcMint && preB.owner != some expectedReceiver &&
        (preB.amount - postAmountFor post preB.accountIndex == delta)) with
  | some preB => preB.owner
  | none => none

/-- Receiver-side balance scan of `findUSDCTransfer` (verify-payment.ts lines
259–297, and verbatim the same block inlined at lines 209–250): walk the
`postTokenBalances` list in order; at the first entry of the expected mint
owned by the expected receiver whose balance strictly increased, return the
delta together with the attributed sender.  `pre` and `post` are the full
snapshots (used for delta and sender computation); the last argument is the
remaining portion of `post` still to be walked. -/
def scanPost (pre post : List TokenBalance) (usdcMint expectedReceiver : String) :
    List TokenBalance → Option (Int × Option String)
  | [] => none
  | postB :: rest =>
    if postB.mint == usdcMint && postB.owner == some expectedReceiver then
      let delta := postB.amount - preAmountFor pre postB.accountIndex
      if 0 < delta then
        some (delta, findSender pre post usdcMint expectedReceiver delta)
      else scanPost pre post usdcMint expectedReceiver rest
    else scanPost pre post usdcMint expectedReceiver rest

/-- Whether an instruction triggers the inner balance scan of the first pass
of `findUSDCTransfer` (verify-payment.ts lines 186–198): it has a `parsed`
field, its program is `spl-token`, its parsed type is `transfer` or
`transferChecked`, and — for `transferChecked` only — its mint matches. -/
def ixQualifies (usdcMint : String) (ix : Instruction) : Bool :=
  match ix.parsed with
  | none => false
  | some p =>
    ix.program == "spl-token" &&
      match p with
      | .transfer _ => true
      | .transferChecked m _ => m == usdcMint
      | .other => false

/-- First pass of `findUSDCTransfer` (verify-payment.ts lines 184–253): for
each qualifying SPL-token transfer instruction, run the receiver-side balance
scan over the full snapshots; return its result as soon as it finds a
positive delta, otherwise continue with the next instruction.  The
instruction's own `destination` field is read into a local in the source but
never consulted. -/
def firstPass (pre post : List TokenBalance) (usdcMint expectedReceiver : String) :
    List Instruction → Option (Int × Option String)
  | [] => none
  | ix :: rest =>
    if ixQualifies usdcMint ix then
      match scanPost pre post usdcMint expectedReceiver post with
      | some result => some result
      | none => firstPass pre post usdcMint expectedReceiver rest
    else firstPass pre post usdcMint expectedReceiver rest

/-- The fallback balance-delta scan of `findUSDCTransfer` standing alone
(verify-payment.ts lines 255–302): the receiver-side balance scan over the
snapshots, packaged as a `TransferSearchResult`. -/
def fallbackScan (tx : ParsedTransactionWithMeta) (usdcMint expectedReceiver : String) :
    TransferSearchResult :=
  let pre := preOf tx
  let post := postOf tx
  match scanPost pre post usdcMint expectedReceiver post with
  | some (delta, sender) =>
    { found := true, sender := sender, receiver := some expectedReceiver,
      amount := some delta }
  | none =>
    { found := false,
      error := some ("No USDC transfer to " ++ expectedReceiver ++ " found in transaction") }

/-- The transfer extractor `findUSDCTransfer` (verify-payment.ts lines
177–303): the instruction-driven first pass followed by the balance-delta
fallback. -/
def findUSDCTransfer (tx : ParsedTransactionWithMeta) (usdcMint expectedReceiver : String) :
    TransferSearchResult :=
  let pre := preOf tx
  let post := postOf tx
  match firstPass pre post usdcMint expectedReceiver tx.instructions with
  | some (delta, sender) =>
    { found := true, sender := sender, receiver := some expectedReceiver,
      amount := some delta }
  | none => fallbackScan tx usdcMint expectedReceiver

/-- Tag for each error-producing `return` site of `verifyPayment`
(verify-payment.ts): which error message the `error` field carries. -/
inductive VerifyError where
  | replayDetected
  | unknownNetwork
  | transactionNotFound
  | transactionFailed
  | transactionTooOld
  | transactionFromFuture
  | transferNotFound
  | amountMismatch
  | rpcFault
deriving DecidableEq

/-- Result record of `verifyPayment` (interface `PaymentVerification`), with
the error message abstracted to its `VerifyError` tag and the human-unit
amount as a rational. -/
structure PaymentVerification where
  valid : Bool
  error : Option VerifyError := none
  sender : Option String := none
  receiver : Option String := none
  amount : Option ℚ := none
  timestamp : Option Int := none
  slot : Option Nat := none
deriving DecidableEq

/-- Devnet USDC mint address (verify-payment.ts line 26). -/
def devnetMint : String := "4zMMC9srt5Ri5X14GAgXhaHii3GnPAEERYPJgZJDncDU"

/-- Mainnet USDC mint address (verify-payment.ts line 27). -/
def mainnetMint : String := "EPjFWdd5AufqSSqeM2qN1xzybapC8G4wEGGkZwyTDt1v"

/-- USDC mint address table keyed by network (`USDC_MINTS`). -/
def USDC_MINTS : String → Option String
  | "devnet" => some devnetMint
  | "mainnet-beta" => some mainnetMint
  | _ => none

/-- Maximum transaction age in seconds (`MAX_TX_AGE_SECONDS = 300`). -/
def MAX_TX_AGE_SECONDS : Int := 300

/-- Outcome of `connection.getParsedTransaction`: the call threw (caught at
verify-payment.ts line 158), or it returned (`none` models a `null` result). -/
inductive FetchOutcome where
  | rpcError
  | fetched (tx : Option ParsedTransactionWithMeta)
deriving DecidableEq

/-- Freshness policy of `verifyPayment` (verify-payment.ts lines 95–117).
The surrounding `if (txTimestamp)` uses JavaScript truthiness, so the whole
check is skipped not only when `blockTime` is `null`/`undefined` but also
when it is exactly `0`. -/
def freshnessCheck (blockTime : Option Int) (now : Int) : Option VerifyError :=
  match blockTime with
  | none => none
  | some txTimestamp =>
    if txTimestamp == 0 then none
    else
      let age := now - txTimestamp
      if MAX_TX_AGE_SECONDS < age then some VerifyError.transactionTooOld
      else if age < -60 then some VerifyError.transactionFromFuture
      else none

/-- Eviction policy of the replay set (verify-payment.ts lines 144–148):
once the set holds more than 10000 signatures, the oldest 5000 (in insertion
order) are dropped. -/
def evictIfNeeded (used : List String) : List String :=
  if 10000 < used.length then used.drop 5000 else used

/-- The payment verifier `verifyPayment` (verify-payment.ts lines 46–164),
with the module-level `usedSignatures` set passed in and returned explicitly
(insertion-ordered, newest last), the wall clock as `now`, and the RPC fetch
outcome as `fetch`.  The order of checks mirrors the source: replay check,
mint lookup, fetch, on-chain error, freshness, transfer extraction, amount
tolerance, and finally insertion into the replay set (followed by eviction)
on the success path only. -/
def verifyPayment (used : List String) (signature : String) (expectedAmount : ℚ)
    (expectedReceiver : String) (network : String) (now : Int)
    (fetch : FetchOutcome) : PaymentVerification × List String :=
  if signature ∈ used then
    ({ valid := false, error := some VerifyError.replayDetected }, used)
  else
    match USDC_MINTS network with
    | none => ({ valid := false, error := some VerifyError.unknownNetwork }, used)
    | some usdcMint =>
      match fetch with
      | FetchOutcome.rpcError =>
        ({ valid := false, error := some VerifyError.rpcFault }, used)
      | FetchOutcome.fetched none =>
        ({ valid := false, error := some VerifyError.transactionNotFound }, used)
      | FetchOutcome.fetched (some tx) =>
        if metaErr tx then
          ({ valid := false, error := some VerifyError.transactionFailed }, used)
        else
          match freshnessCheck tx.blockTime now with
          | some e =>
            ({ valid := false, error := some e, timestamp := tx.blockTime }, used)
          | none =>
            let transferResult := findUSDCTransfer tx usdcMint expectedReceiver
            if !transferResult.found then
              ({ valid := false, error := some VerifyError.transferNotFound }, used)
            else
              let expectedAmountRaw : ℚ := expectedAmount * 1000000
              let tolerance : ℚ := 1000
              let amt : Int := transferResult.amount.getD 0
              if tolerance < |(amt : ℚ) - expectedAmountRaw| then
                ({ valid := false, error := some VerifyError.amountMismatch,
                   amount := some ((amt : ℚ) / 1000000) }, used)
              else
                ({ valid := true,
                   sender := transferResult.sender,
                   receiver := transferResult.receiver,
                   amount := some ((amt : ℚ) / 1000000),
                   timestamp := tx.blockTime,
                   slot := some tx.slot },
                 evictIfNeeded (used ++ [signature]))

/-- Decision taken by the route handler `GET` of
`src/app/api/reputation/route.ts` on the authorization credential, up to the
point where `verifyPayment` would run: emit the 402 payment-required
response, reject with the structural 400 error, or proceed to on-chain
verification (which performs the ledger fetch) with the extracted
signature. -/
inductive RouteAction where
  | paymentRequired
  | invalidFormat
  | verifyProof (sig : String)
deriving DecidableEq

/-- Characters matched by the regex class `\s` (ASCII portion), as used in
`/^bearer\s+/i`. -/
def isRegexSpace (c : Char) : Bool :=
  c == ' ' || c == '\t' || c == '\n' || c == '\r' || c == '\x0b' || c == '\x0c'

/-- Removal of an optional case-insensitive `bearer` prefix followed by at
least one whitespace character: `authHeader.replace(/^bearer\s+/i, '')`
(route.ts line 188). -/
def stripBearer (s : String) : String :=
  match s.toList with
  | b :: e1 :: a :: r1 :: e2 :: r2 :: c :: rest =>
    if (b.toLower == 'b' && e1.toLower == 'e' && a.toLower == 'a' &&
        r1.toLower == 'r' && e2.toLower == 'e' && r2.toLower == 'r') &&
        isRegexSpace c then
      String.mk ((c :: rest).dropWhile isRegexSpace)
    else s
  | _ => s

/-- JavaScript `String.prototype.trim` (ASCII whitespace portion): leading
and trailing whitespace removed. -/
def jsTrim (s : String) : String :=
  String.mk (((s.toList.dropWhile Char.isWhitespace).reverse.dropWhile
    Char.isWhitespace).reverse)

/-- The authorization-processing prefix of the route handler (route.ts lines
179–207): no header yields the 402 payment-required response; otherwise the
signature is extracted (`bearer` prefix stripped, trimmed) and rejected with
a 400 before any verification when it is empty or shorter than 80
characters; only past that check does the handler call `verifyPayment`
(which performs the ledger fetch). -/
def routeAuth (authHeader : Option String) : RouteAction :=
  match authHeader with
  | none => RouteAction.paymentRequired
  | some h =>
    let signature := jsTrim (stripBearer h)
    if signature == "" || signature.length < 80 then RouteAction.invalidFormat
    else RouteAction.verifyProof signature

/-- Fields of a 402 response body relevant to
`AgentWallet.parsePaymentRequirements` (AgentWallet.ts lines 293–311).  Each
optional field is `none` when absent or falsy in the JSON; the two amount
fields carry the numeric value that `parseFloat` (after stripping a `$`
prefix) would produce. -/
structure PaymentBody where
  receiver : Option String := none
  address : Option String := none
  wallet : Option String := none
  recipient : Option String := none
  amount : Option ℚ := none
  price : Option ℚ := none
  token : Option String := none
  asset : Option String := none
  network : Option String := none
deriving DecidableEq

/-- A parsed 402 JSON body: `response.payment || response` — the nested
`payment` object when present and truthy, else the top-level object itself. -/
structure PaymentInfo where
  payment : Option PaymentBody := none
  topLevel : PaymentBody := {}
deriving DecidableEq

/-- Strongly-typed payment requirements (interface `PaymentRequirements`);
`receiver` stays optional because every alias may be absent in the JSON. -/
structure PaymentRequirements where
  receiver : Option String
  amount : ℚ
  token : String
  network : String
deriving DecidableEq

/-- The tolerant requirement decoder `parsePaymentRequirements`
(AgentWallet.ts lines 293–311): field-alias fallback chains for receiver,
amount (default `0`), token (default `USDC`) and network (default: the
wallet's configured network). -/
def parsePaymentRequirements (selfNetwork : String) (info : PaymentInfo) :
    PaymentRequirements :=
  let payment := info.payment.getD info.topLevel
  { receiver := payment.receiver <|> payment.address <|> payment.wallet <|> payment.recipient,
    amount := (payment.amount <|> payment.price).getD 0,
    token := (payment.token <|> payment.asset).getD "USDC",
    network := payment.network.getD selfNetwork }

/-- An HTTP response as seen by `pay`: the status code, the outcome of the
402-requirement parse, and the outcome of the data-body parse.

`jsonBody` is the result of the unconditional `initialResponse.json()` call
of the 402 branch (AgentWallet.ts line 170): `none` models a body on which
`.json()` rejects.  `parseThrows` is whether `parseResponse` (lines 316–324)
rejects for this response — it does exactly when the content type is
`application/json` and the body is malformed (the `text()` path does not
throw).  The two fields are independent because `parseResponse` consults the
content type while the 402 branch calls `.json()` unconditionally. -/
structure HttpResponse where
  status : Nat
  jsonBody : Option PaymentInfo := none
  parseThrows : Bool := false
deriving DecidableEq

/-- JavaScript `Response.ok`: status in the range 200–299. -/
def isOk (status : Nat) : Bool :=
  200 ≤ status && status < 300

/-- Outcome of one of the two `fetch` calls inside `pay`: the promise
rejected (caught at AgentWallet.ts line 221), or a response arrived. -/
inductive FetchResult where
  | threw
  | resp (r : HttpResponse)
deriving DecidableEq

/-- Outcome of the `sendUSDCPayment` call (AgentWallet.ts lines 239–288): it
threw with a message (e.g. the insufficient-balance error built at lines
261–265, or a broadcast failure), or it confirmed and returned the
transaction signature. -/
inductive TransferOutcome where
  | threw (msg : String)
  | succeeded (sig : String)
deriving DecidableEq

/-- Result record of `pay` (interface `PaymentResponse`), with the response
payload abstracted away (no claim inspects it). -/
structure PayResult where
  success : Bool
  error : Option String := none
  txSignature : Option String := none
  status : Nat
deriving DecidableEq

/-- Error string of a non-OK response: `HTTP ${status}`. -/
def httpError (status : Nat) : String :=
  "HTTP " ++ toString status

/-- Budget-guard error string (AgentWallet.ts line 183):
`Payment amount $X exceeds maximum $Y`. -/
def budgetExceededMsg (required maxAmount : ℚ) : String :=
  "Payment amount $" ++ toString required ++ " exceeds maximum $" ++ toString maxAmount

/-- The x402 client flow `AgentWallet.pay` (AgentWallet.ts lines 139–234),
with its three network-bound steps supplied as trace parameters: the initial
fetch, the `sendUSDCPayment` call, and the paid retry fetch.  A thrown step
lands in the single `catch` block, which always reports `status 0`: that
covers a rejected fetch, the `parseResponse` body parse of a non-402 initial
response (line 160), the `.json()` requirement parse of a 402 body
(line 170), the transfer itself, a rejected retry fetch, and the
`parseResponse` body parse of the retry response (line 208) — the last one
running before the result record is built, so the signature is dropped too.
The second component of the result records whether `sendUSDCPayment` was
invoked at all, so that "no transfer attempted" is an inspectable fact of a
run.  Messages of exceptions raised by the runtime (failed fetch, malformed
body) are modelled by fixed placeholder strings; no claim depends on their
text. -/
def pay (maxAmount : ℚ) (selfNetwork : String) (initial : FetchResult)
    (transfer : TransferOutcome) (retry : FetchResult) : PayResult × Bool :=
  match initial with
  | FetchResult.threw =>
    ({ success := false, error := some ("fetch failed"), status := 0 }, false)
  | FetchResult.resp initialResponse =>
    if initialResponse.status ≠ 402 then
      if initialResponse.parseThrows then
        ({ success := false, error := some ("body parse failed"), status := 0 }, false)
      else
        ({ success := isOk initialResponse.status,
           status := initialResponse.status,
           error := if isOk initialResponse.status then none
                    else some (httpError initialResponse.status) }, false)
    else
      match initialResponse.jsonBody with
      | none =>
        ({ success := false, error := some ("json parse failed"), status := 0 }, false)
      | some paymentInfo =>
        let requirements := parsePaymentRequirements selfNetwork paymentInfo
        if maxAmount < requirements.amount then
          ({ success := false,
             error := some (budgetExceededMsg requirements.amount maxAmount),
             status := 402 }, false)
        else
          match transfer with
          | TransferOutcome.threw msg =>
            ({ success := false, error := some msg, status := 0 }, true)
          | TransferOutcome.succeeded txSignature =>
            match retry with
            | FetchResult.threw =>
              ({ success := false, error := some ("fetch failed"), status := 0 }, true)
            | FetchResult.resp paidResponse =>
              if paidResponse.parseThrows then
                ({ success := false, error := some ("body parse failed"), status := 0 }, true)
              else
                ({ success := isOk paidResponse.status,
                   txSignature := some txSignature,
                   status := paidResponse.status,
                   error := if isOk paidResponse.status then none
                            else some (httpError paidResponse.status) }, true)

/-- Family of concrete single-transfer transactions used to exercise
`verifyPayment`: block time `bt`, one sender account (index 0) that starts
with 100000 raw units, and a receiver account (index 1, owner `RECV`, no
pre-entry) credited with `amt` raw units; the sender's balance decreases by
exactly `amt`. -/
def sampleTransferTx (bt : Option Int) (amt : Int) : ParsedTransactionWithMeta :=
  { blockTime := bt, slot := 7, instructions := [],
    meta :=
      some
        { err := false,
          preTokenBalances := [⟨0, devnetMint, some ("SENDER"), 100000⟩],
          postTokenBalances := [⟨1, devnetMint, some ("RECV"), amt⟩,
                                ⟨0, devnetMint, some ("SENDER"), 100000 - amt⟩] } }

/-- Concrete transaction whose receiver balance increases by `amt` but whose
`preTokenBalances` contain no other account of the mint, so sender
attribution finds no exact-delta account. -/
def sampleNoSenderTx (bt : Option Int) (amt : Int) : ParsedTransactionWithMeta :=
  { blockTime := bt, slot := 9, instructions := [],
    meta :=
      some
        { err := false,
          preTokenBalances := [],
          postTokenBalances := [⟨1, devnetMint, some ("RECV"), amt⟩] } }

/-- Concrete transaction that credits only the owner `OTHER` (same mint), so
no qualifying transfer to `RECV` exists. -/
def sampleOtherOwnerTx : ParsedTransactionWithMeta :=
  { blockTime := some 100, slot := 11, instructions := [],
    meta :=
      some
        { err := false,
          preTokenBalances := [⟨0, devnetMint, some ("SENDER"), 100000⟩],
          postTokenBalances := [⟨1, devnetMint, some ("OTHER"), 50000⟩,
                                ⟨0, devnetMint, some ("SENDER"), 50000⟩] } }

/-- A 200-character string: not a plausible encoded ledger signature (a
Solana signature is 64 bytes, base58-encoded to at most 88 characters), yet
long enough to pass the route's only structural check. -/
def sig200 : String := String.mk (List.replicate 200 ('x'))

/-- Reduction of `verifyPayment` once the replay, network, fetch, on-chain
error and freshness stages have passed: it runs the transfer extractor
followed by the amount-tolerance gate, and only the final success branch
touches the replay set. -/
theorem verifyPayment_pipeline (used : List String) (s : String) (e : ℚ) (r net : String)
    (now : Int) (tx : ParsedTransactionWithMeta) (mint : String)
    (hmem : s ∉ used) (hmint : USDC_MINTS net = some mint) (herr : metaErr tx = false)
    (hfresh : freshnessCheck tx.blockTime now = none) :
    verifyPayment used s e r net now (FetchOutcome.fetched (some tx)) =
      (if !(findUSDCTransfer tx mint r).found then
        ({ valid := false, error := some VerifyError.transferNotFound }, used)
      else if (1000 : ℚ) < |(((findUSDCTransfer tx mint r).amount.getD 0 : Int) : ℚ) - e * 1000000| then
        ({ valid := false, error := some VerifyError.amountMismatch,
           amount := some ((((findUSDCTransfer tx mint r).amount.getD 0 : Int) : ℚ) / 1000000) }, used)
      else
        ({ valid := true, sender := (findUSDCTransfer tx mint r).sender,
           receiver := (findUSDCTransfer tx mint r).receiver,
           amount := some ((((findUSDCTransfer tx mint r).amount.getD 0 : Int) : ℚ) / 1000000),
           timestamp := tx.blockTime, slot := some tx.slot },
         evictIfNeeded (used ++ [s]))) := by
  unfold verifyPayment
  rw [if_neg hmem, hmint]
  simp only [herr, hfresh, Bool.false_eq_true, if_false]

/-- Every run of `verifyPayment` either fails and leaves the replay set
untouched, or succeeds on a signature that was not yet in the set and
appends it (followed by the eviction step). -/
theorem verify_cases (used : List String) (s : String) (e : ℚ) (r net : String)
    (now : Int) (f : FetchOutcome) :
    ((verifyPayment used s e r net now f).1.valid = false ∧
      (verifyPayment used s e r net now f).2 = used)
  ∨ ((verifyPayment used s e r net now f).1.valid = true ∧ s ∉ used ∧
      (verifyPayment used s e r net now f).2 = evictIfNeeded (used ++ [s])) := by
  by_cases hmem : s ∈ used
  · left; simp [verifyPayment, hmem]
  · cases hm : USDC_MINTS net with
    | none => left; simp [verifyPayment, hmem, hm]
    | some mint =>
      cases f with
      | rpcError => left; simp [verifyPayment, hmem, hm]
      | fetched otx =>
        cases otx with
        | none => left; simp [verifyPayment, hmem, hm]
        | some tx =>
          by_cases herr : metaErr tx
          · left; simp [verifyPayment, hmem, hm, herr]
          · cases hf : freshnessCheck tx.blockTime now with
            | some e2 => left; simp [verifyPayment, hmem, hm, herr, hf]
            | none =>
              by_cases hfound : (findUSDCTransfer tx mint r).found
              · by_cases hamt : (1000:ℚ) <
                    |(((findUSDCTransfer tx mint r).amount.getD 0 : Int):ℚ) - e * 1000000|
                · left; simp [verifyPayment, hmem, hm, herr, hf, hfound, hamt]
                · right; simp [verifyPayment, hmem, hm, herr, hf, hfound, hamt]
              · left; simp [verifyPayment, hmem, hm, herr, hf, hfound]

/-- A signature already in the replay set is rejected up front with the
replay error, leaving the set unchanged. -/
theorem verify_replay_hit (used : List String) (s : String) (e : ℚ) (r net : String)
    (now : Int) (f : FetchOutcome) (hmem : s ∈ used) :
    verifyPayment used s e r net now f =
      ({ valid := false, error := some VerifyError.replayDetected }, used) := by
  unfold verifyPayment
  rw [if_pos hmem]

/-- The just-appended signature survives the eviction step: eviction drops
only the oldest 5000 entries of a list longer than 10000, and the new
signature is the newest. -/
theorem mem_evictIfNeeded_append (used : List String) (s : String) :
    s ∈ evictIfNeeded (used ++ [s]) := by
  unfold evictIfNeeded
  split
  · rename_i hlen
    rw [List.drop_append_eq_append_drop]
    have h0 : 5000 - used.length = 0 := by
      simp [List.length_append] at hlen
      omega
    rw [h0]
    simp
  · simp

theorem scanPost_isSome_iff (pre post : List TokenBalance) (m r : String) :
    ∀ l : List TokenBalance, (scanPost pre post m r l).isSome = true ↔
      ∃ b ∈ l, b.mint = m ∧ b.owner = some r ∧
        0 < b.amount - preAmountFor pre b.accountIndex := by
  intro l
  induction l with
  | nil => simp [scanPost]
  | cons b rest ih =>
    simp only [scanPost]
    by_cases h1 : (b.mint == m && b.owner == some r) = true
    · rw [if_pos h1]
      simp only [beq_iff_eq, Bool.and_eq_true] at h1
      by_cases h2 : 0 < b.amount - preAmountFor pre b.accountIndex
      · simp only [if_pos h2, Option.isSome_some, true_iff]
        exact ⟨b, List.mem_cons_self b rest, h1.1, h1.2, h2⟩
      · simp only [h2, if_false, ih]
        constructor
        · intro ⟨c, hc, hprop⟩; exact ⟨c, List.mem_cons_of_mem _ hc, hprop⟩
        · rintro ⟨c, hc, hprop⟩
          rcases List.mem_cons.mp hc with hcb | hcr
          · exact absurd (hcb ▸ hprop.2.2) h2
          · exact ⟨c, hcr, hprop⟩
    · rw [if_neg h1]
      simp only [beq_iff_eq, Bool.and_eq_true, not_and_or] at h1
      rw [ih]
      constructor
      · intro ⟨c, hc, hprop⟩; exact ⟨c, List.mem_cons_of_mem _ hc, hprop⟩
      · rintro ⟨c, hc, hprop⟩
        rcases List.mem_cons.mp hc with hcb | hcr
        · subst hcb
          rcases h1 with h | h
          · exact absurd hprop.1 (by simpa using h)
          · exact absurd hprop.2.1 (by simpa using h)
        · exact ⟨c, hcr, hprop⟩

theorem scanPost_some_snd (pre post : List TokenBalance) (m r : String) :
    ∀ l d sn, scanPost pre post m r l = some (d, sn) →
      sn = findSender pre post m r d := by
  intro l
  induction l with
  | nil => intro d sn h; simp [scanPost] at h
  | cons b rest ih =>
    intro d sn h
    simp only [scanPost] at h
    by_cases h1 : (b.mint == m && b.owner == some r) = true
    · rw [if_pos h1] at h
      by_cases h2 : 0 < b.amount - preAmountFor pre b.accountIndex
      · rw [if_pos h2] at h
        simp only [Option.some.injEq, Prod.mk.injEq] at h
        obtain ⟨hd, hs⟩ := h
        subst hd
        exact hs.symm
      · rw [if_neg h2] at h
        exact ih d sn h
    · rw [if_neg h1] at h
      exact ih d sn h

theorem firstPass_cases (pre post : List TokenBalance) (m r : String) :
    ∀ ixs : List Instruction,
      firstPass pre post m r ixs = none ∨
      firstPass pre post m r ixs = scanPost pre post m r post := by
  intro ixs
  induction ixs with
  | nil => left; simp [firstPass]
  | cons ix rest ih =>
    simp only [firstPass]
    by_cases hq : ixQualifies m ix = true
    · rw [if_pos hq]
      cases hs : scanPost pre post m r post with
      | none => simpa [hs] using ih
      | some p => right; rfl
    · rw [if_neg hq]; exact ih

theorem findUSDCTransfer_eq_fallbackScan (tx : ParsedTransactionWithMeta) (m r : String) :
    findUSDCTransfer tx m r = fallbackScan tx m r := by
  simp only [findUSDCTransfer]
  rcases firstPass_cases (preOf tx) (postOf tx) m r tx.instructions with h | h
  · rw [h]
  · rw [h]
    simp only [fallbackScan]
    cases hs : scanPost (preOf tx) (postOf tx) m r (postOf tx) with
    | none => simp [hs]
    | some p => simp [hs]

theorem findUSDCTransfer_found_iff (tx : ParsedTransactionWithMeta) (m r : String) :
    (findUSDCTransfer tx m r).found = true ↔
      ∃ b ∈ postOf tx, b.mint = m ∧ b.owner = some r ∧
        0 < b.amount - preAmountFor (preOf tx) b.accountIndex := by
  rw [findUSDCTransfer_eq_fallbackScan]
  rw [← scanPost_isSome_iff (preOf tx) (postOf tx) m r (postOf tx)]
  simp only [fallbackScan]
  cases hs : scanPost (preOf tx) (postOf tx) m r (postOf tx) with
  | none => simp [hs]
  | some p => simp [hs]

theorem findUSDCTransfer_found_shape (tx : ParsedTransactionWithMeta) (m r : String)
    (h : (findUSDCTransfer tx m r).found = true) :
    ∃ d : Int, findUSDCTransfer tx m r =
      { found := true, sender := findSender (preOf tx) (postOf tx) m r d,
        receiver := some r, amount := some d } := by
  rw [findUSDCTransfer_eq_fallbackScan] at h ⊢
  simp only [fallbackScan] at h ⊢
  cases hs : scanPost (preOf tx) (postOf tx) m r (postOf tx) with
  | none => rw [hs] at h; simp at h
  | some p =>
    obtain ⟨d, sn⟩ := p
    have hsn := scanPost_some_snd (preOf tx) (postOf tx) m r (postOf tx) d sn hs
    simp only [hs]
    exact ⟨d, by rw [hsn]⟩

theorem findSender_some (pre post : List TokenBalance) (m r : String) (d : Int) (s : String)
    (h : findSender pre post m r d = some s) :
    ∃ b ∈ pre, b.mint = m ∧ b.owner = some s ∧ b.owner ≠ some r ∧
      b.amount - postAmountFor post b.accountIndex = d := by
  unfold findSender at h
  cases hf : pre.find? (fun preB =>
      preB.mint == m && preB.owner != some r &&
        (preB.amount - postAmountFor post preB.accountIndex == d)) with
  | none => rw [hf] at h; simp at h
  | some b =>
    rw [hf] at h
    have hmem := List.mem_of_find?_eq_some hf
    have hp := List.find?_some hf
    simp only [Bool.and_eq_true, beq_iff_eq, bne_iff_ne, ne_eq] at hp
    exact ⟨b, hmem, hp.1.1, h, by simpa using hp.1.2, hp.2⟩

theorem findSender_eq_none (pre post : List TokenBalance) (m r : String) (d : Int)
    (h : ¬ ∃ b ∈ pre, b.mint = m ∧ b.owner ≠ some r ∧
      b.amount - postAmountFor post b.accountIndex = d) :
    findSender pre post m r d = none := by
  unfold findSender
  have : pre.find? (fun preB =>
      preB.mint == m && preB.owner != some r &&
        (preB.amount - postAmountFor post preB.accountIndex == d)) = none := by
    rw [List.find?_eq_none]
    intro b hb
    intro hp
    simp only [Bool.and_eq_true, beq_iff_eq, bne_iff_ne, ne_eq] at hp
    exact h ⟨b, hb, hp.1.1, by simpa using hp.1.2, hp.2⟩
  rw [this]


/-- C1: every signature accepted by `verifyPayment` (`valid = true`) is inserted
into the used-signature set on the success path, so a later call with the same
signature — whatever its other arguments — is rejected up front with the
replay error, the set being checked before anything else. -/
theorem claim_replay_second_call (used : List String) (s : String) (e e2 : ℚ)
    (r r2 net net2 : String) (now now2 : Int) (f f2 : FetchOutcome)
    (h : (verifyPayment used s e r net now f).1.valid = true) :
    (verifyPayment (verifyPayment used s e r net now f).2 s e2 r2 net2 now2 f2).1 =
      { valid := false, error := some VerifyError.replayDetected } := by
  rcases verify_cases used s e r net now f with ⟨hv, _⟩ | ⟨_, _, hst⟩
  · rw [h] at hv; cases hv
  · rw [hst, verify_replay_hit _ _ e2 r2 net2 now2 f2 (mem_evictIfNeeded_append used s)]

theorem claim_replay_second_call_witness :
    (verifyPayment (verifyPayment [] ("SIG") (1/20) ("RECV") ("devnet") 100
        (FetchOutcome.fetched (some (sampleTransferTx (some 100) 50000)))).2
      ("SIG") (1/20) ("RECV") ("devnet") 100
      (FetchOutcome.fetched (some (sampleTransferTx (some 100) 50000)))).1 =
      { valid := false, error := some VerifyError.replayDetected } := by
  refine claim_replay_second_call [] ("SIG") (1/20) (1/20) ("RECV") ("RECV") ("devnet")
    ("devnet") 100 100 _ _ ?_
  have h1 : findUSDCTransfer (sampleTransferTx (some 100) 50000) devnetMint ("RECV") =
      { found := true, sender := some ("SENDER"), receiver := some ("RECV"),
        amount := some 50000 } := by decide
  rw [verifyPayment_pipeline [] ("SIG") (1/20) ("RECV") ("devnet") 100 _ devnetMint
    (by simp) (by decide) (by decide) (by decide), h1]
  norm_num

/-- C6: every call of `verifyPayment` that returns `valid = false` (replay hit,
unknown network, not-found, failed transaction, staleness, no transfer, amount
mismatch, or RPC fault) leaves the used-signature set unchanged, so repeating
the identical failing call yields the identical result — in particular a
signature failing with `AmountMismatch` keeps failing with `AmountMismatch`,
never with `ReplayDetected`. -/
theorem claim_failure_preserves_state (used : List String) (s : String) (e : ℚ)
    (r net : String) (now : Int) (f : FetchOutcome)
    (h : (verifyPayment used s e r net now f).1.valid = false) :
    (verifyPayment used s e r net now f).2 = used ∧
    verifyPayment ((verifyPayment used s e r net now f).2) s e r net now f =
      verifyPayment used s e r net now f := by
  rcases verify_cases used s e r net now f with ⟨_, hst⟩ | ⟨hv, _, _⟩
  · exact ⟨hst, by rw [hst]⟩
  · rw [hv] at h; cases h

theorem claim_failure_preserves_state_witness :
    (verifyPayment [] ("SIGF") (1/20) ("RECV") ("devnet") 100
        (FetchOutcome.fetched (some (sampleTransferTx (some 100) 48999)))).2 = [] ∧
    verifyPayment ((verifyPayment [] ("SIGF") (1/20) ("RECV") ("devnet") 100
        (FetchOutcome.fetched (some (sampleTransferTx (some 100) 48999)))).2)
      ("SIGF") (1/20) ("RECV") ("devnet") 100
      (FetchOutcome.fetched (some (sampleTransferTx (some 100) 48999))) =
    verifyPayment [] ("SIGF") (1/20) ("RECV") ("devnet") 100
      (FetchOutcome.fetched (some (sampleTransferTx (some 100) 48999))) := by
  refine claim_failure_preserves_state [] ("SIGF") (1/20) ("RECV") ("devnet") 100 _ ?_
  have h1 : findUSDCTransfer (sampleTransferTx (some 100) 48999) devnetMint ("RECV") =
      { found := true, sender := some ("SENDER"), receiver := some ("RECV"),
        amount := some 48999 } := by decide
  rw [verifyPayment_pipeline [] ("SIGF") (1/20) ("RECV") ("devnet") 100 _ devnetMint
    (by simp) (by decide) (by decide) (by decide), h1]
  norm_num

/-- C10: for every transaction detail, `findUSDCTransfer` returns exactly the
result of the pure balance-delta fallback scan over the pre/post token
balances: the instruction-parsing first pass never changes the outcome (its
inner search is the same balance scan, and the instruction's destination
account never restricts which balance entry matches). -/
theorem claim_extractor_refinement (tx : ParsedTransactionWithMeta) (m r : String) :
    findUSDCTransfer tx m r = fallbackScan tx m r :=
  findUSDCTransfer_eq_fallbackScan tx m r

/-- C2: `findUSDCTransfer` reports a transfer found iff some
`postTokenBalances` entry has the expected mint, the expected receiver as
owner, and a strictly positive delta over its matching pre-amount (0 when
absent); balance changes crediting any other owner, or non-positive deltas to
the receiver, never yield `found`, and `verifyPayment` then fails with the
`TransferNotFound` error. -/
theorem claim_receiver_discrimination (tx : ParsedTransactionWithMeta) (m r : String) :
    ((findUSDCTransfer tx m r).found = true ↔
      ∃ b ∈ postOf tx, b.mint = m ∧ b.owner = some r ∧
        0 < b.amount - preAmountFor (preOf tx) b.accountIndex)
  ∧ ((findUSDCTransfer tx m r).found = false →
      ∀ (used : List String) (s net : String) (e : ℚ) (now : Int),
        s ∉ used → USDC_MINTS net = some m → metaErr tx = false →
        freshnessCheck tx.blockTime now = none →
        (verifyPayment used s e r net now (FetchOutcome.fetched (some tx))).1 =
          { valid := false, error := some VerifyError.transferNotFound }) := by
  refine ⟨findUSDCTransfer_found_iff tx m r, ?_⟩
  intro hnf used s net e now hmem hmint herr hfresh
  rw [verifyPayment_pipeline used s e r net now tx m hmem hmint herr hfresh]
  simp [hnf]

theorem claim_receiver_discrimination_witness :
    (verifyPayment [] ("SIGO") (1/20) ("RECV") ("devnet") 100
        (FetchOutcome.fetched (some sampleOtherOwnerTx))).1 =
      { valid := false, error := some VerifyError.transferNotFound } :=
  (claim_receiver_discrimination sampleOtherOwnerTx devnetMint ("RECV")).2
    (by decide) [] ("SIGO") ("devnet") (1/20) 100 (by simp) (by decide) (by decide) (by decide)

/-- C3: for every transaction from which the extractor reports raw amount `a`,
and every expected amount `e > 0`, `verifyPayment` accepts the amount iff
`|a - e * 1000000| ≤ 1000` smallest units (boundary inclusive) and otherwise
rejects with `AmountMismatch`.  The witness instantiates `e = 0.05`: raw
deltas 50000 and 49000 are accepted, 48999 is rejected. -/
theorem claim_amount_tolerance (tx : ParsedTransactionWithMeta) (a : Int)
    (used : List String) (s r net mint : String) (e : ℚ) (now : Int)
    (he : 0 < e)
    (hmem : s ∉ used) (hmint : USDC_MINTS net = some mint) (herr : metaErr tx = false)
    (hfresh : freshnessCheck tx.blockTime now = none)
    (hfound : (findUSDCTransfer tx mint r).found = true)
    (hamt : (findUSDCTransfer tx mint r).amount = some a) :
    ((verifyPayment used s e r net now (FetchOutcome.fetched (some tx))).1.valid = true ↔
      |(a : ℚ) - e * 1000000| ≤ 1000)
  ∧ (1000 < |(a : ℚ) - e * 1000000| →
      (verifyPayment used s e r net now (FetchOutcome.fetched (some tx))).1.error =
        some VerifyError.amountMismatch) := by
  rw [verifyPayment_pipeline used s e r net now tx mint hmem hmint herr hfresh]
  constructor
  · by_cases hc : (1000 : ℚ) < |(a : ℚ) - e * 1000000|
    · simp [hfound, hamt, hc]
    · simp [hfound, hamt, hc]
      exact not_lt.mp hc
  · intro hc
    simp [hfound, hamt, hc]

theorem claim_amount_tolerance_witness :
    ((verifyPayment [] ("SA") (1/20) ("RECV") ("devnet") 100
        (FetchOutcome.fetched (some (sampleTransferTx (some 100) 49000)))).1.valid = true)
  ∧ ((verifyPayment [] ("SB") (1/20) ("RECV") ("devnet") 100
        (FetchOutcome.fetched (some (sampleTransferTx (some 100) 48999)))).1.error =
      some VerifyError.amountMismatch)
  ∧ ((verifyPayment [] ("SC") (1/20) ("RECV") ("devnet") 100
        (FetchOutcome.fetched (some (sampleTransferTx (some 100) 50000)))).1.valid = true) := by
  refine ⟨?_, ?_, ?_⟩
  · exact (claim_amount_tolerance (sampleTransferTx (some 100) 49000) 49000 [] ("SA")
      ("RECV") ("devnet") devnetMint (1/20) 100 (by norm_num) (by simp) (by decide)
      (by decide) (by decide) (by decide) (by decide)).1.mpr (by norm_num)
  · exact (claim_amount_tolerance (sampleTransferTx (some 100) 48999) 48999 [] ("SB")
      ("RECV") ("devnet") devnetMint (1/20) 100 (by norm_num) (by simp) (by decide)
      (by decide) (by decide) (by decide) (by decide)).2 (by norm_num)
  · exact (claim_amount_tolerance (sampleTransferTx (some 100) 50000) 50000 [] ("SC")
      ("RECV") ("devnet") devnetMint (1/20) 100 (by norm_num) (by simp) (by decide)
      (by decide) (by decide) (by decide) (by decide)).1.mpr (by norm_num)

/-- C9: when `findUSDCTransfer` finds a qualifying delta, any reported sender
is the owner of a `preTokenBalances` entry of the same mint, owned by someone
other than the receiver, whose balance decreased by exactly the delta; when no
such exact-delta account exists the sender is absent, yet the transfer is
still found and `verifyPayment` still returns `valid = true` with the sender
passed through (absent included). -/
theorem claim_sender_attribution (tx : ParsedTransactionWithMeta) (m r : String) :
    ((findUSDCTransfer tx m r).found = true →
      ∀ s : String, (findUSDCTransfer tx m r).sender = some s →
        ∃ b ∈ preOf tx, b.mint = m ∧ b.owner = some s ∧ b.owner ≠ some r ∧
          b.amount - postAmountFor (postOf tx) b.accountIndex =
            (findUSDCTransfer tx m r).amount.getD 0)
  ∧ ((findUSDCTransfer tx m r).found = true →
      (¬ ∃ b ∈ preOf tx, b.mint = m ∧ b.owner ≠ some r ∧
          b.amount - postAmountFor (postOf tx) b.accountIndex =
            (findUSDCTransfer tx m r).amount.getD 0) →
      (findUSDCTransfer tx m r).sender = none)
  ∧ (∀ (used : List String) (s net : String) (e : ℚ) (now : Int),
      s ∉ used → USDC_MINTS net = some m → metaErr tx = false →
      freshnessCheck tx.blockTime now = none →
      (findUSDCTransfer tx m r).found = true →
      |(((findUSDCTransfer tx m r).amount.getD 0 : Int) : ℚ) - e * 1000000| ≤ 1000 →
      (verifyPayment used s e r net now (FetchOutcome.fetched (some tx))).1.valid = true ∧
      (verifyPayment used s e r net now (FetchOutcome.fetched (some tx))).1.sender =
        (findUSDCTransfer tx m r).sender) := by
  refine ⟨?_, ?_, ?_⟩
  · intro hfound s hs
    obtain ⟨d, hshape⟩ := findUSDCTransfer_found_shape tx m r hfound
    rw [hshape] at hs ⊢
    simp only [Option.getD_some]
    exact findSender_some (preOf tx) (postOf tx) m r d s hs
  · intro hfound hnone
    obtain ⟨d, hshape⟩ := findUSDCTransfer_found_shape tx m r hfound
    rw [hshape] at hnone ⊢
    simp only [Option.getD_some] at hnone
    exact findSender_eq_none (preOf tx) (postOf tx) m r d hnone
  · intro used s net e now hmem hmint herr hfresh hfound hamt
    rw [verifyPayment_pipeline used s e r net now tx m hmem hmint herr hfresh]
    simp [hfound, not_lt.mpr hamt]

theorem claim_sender_attribution_witness :
    (verifyPayment [] ("SIGN") (1/20) ("RECV") ("devnet") 100
        (FetchOutcome.fetched (some (sampleNoSenderTx (some 100) 50000)))).1.valid = true ∧
    (verifyPayment [] ("SIGN") (1/20) ("RECV") ("devnet") 100
        (FetchOutcome.fetched (some (sampleNoSenderTx (some 100) 50000)))).1.sender = none := by
  have h := (claim_sender_attribution (sampleNoSenderTx (some 100) 50000) devnetMint
      ("RECV")).2.2 [] ("SIGN") ("devnet") (1/20) 100 (by simp) (by decide) (by decide)
      (by decide) (by decide)
      (by
        have h1 : findUSDCTransfer (sampleNoSenderTx (some 100) 50000) devnetMint ("RECV") =
            { found := true, sender := none, receiver := some ("RECV"),
              amount := some 50000 } := by decide
        rw [h1]
        norm_num)
  refine ⟨h.1, h.2.trans ?_⟩
  decide

theorem verifyPayment_freshness_stop (used : List String) (s : String) (e : ℚ)
    (r net : String) (now : Int) (tx : ParsedTransactionWithMeta) (mint : String)
    (err : VerifyError)
    (hmem : s ∉ used) (hmint : USDC_MINTS net = some mint) (herr : metaErr tx = false)
    (hfresh : freshnessCheck tx.blockTime now = some err) :
    verifyPayment used s e r net now (FetchOutcome.fetched (some tx)) =
      ({ valid := false, error := some err, timestamp := tx.blockTime }, used) := by
  unfold verifyPayment
  rw [if_neg hmem, hmint]
  simp only [herr, hfresh, Bool.false_eq_true, if_false]

theorem verify_error_after_fresh (used : List String) (s : String) (e : ℚ)
    (r net : String) (now : Int) (tx : ParsedTransactionWithMeta) (mint : String)
    (hmem : s ∉ used) (hmint : USDC_MINTS net = some mint) (herr : metaErr tx = false)
    (hfresh : freshnessCheck tx.blockTime now = none) :
    (verifyPayment used s e r net now (FetchOutcome.fetched (some tx))).1.error =
      some VerifyError.transferNotFound ∨
    (verifyPayment used s e r net now (FetchOutcome.fetched (some tx))).1.error =
      some VerifyError.amountMismatch ∨
    (verifyPayment used s e r net now (FetchOutcome.fetched (some tx))).1.error = none := by
  rw [verifyPayment_pipeline used s e r net now tx mint hmem hmint herr hfresh]
  by_cases h1 : (findUSDCTransfer tx mint r).found
  · by_cases h2 : (1000:ℚ) < |(((findUSDCTransfer tx mint r).amount.getD 0 : Int):ℚ) - e * 1000000|
    · right; left; simp [h1, h2]
    · right; right; simp [h1, h2]
  · left; simp [h1]

/-- C4 (amended): for every fetched transaction whose `blockTime` is known
*and nonzero*, `verifyPayment` rejects with `TransactionTooOld` iff
`now − blockTime > 300` and with `TransactionFromFuture` iff
`blockTime − now > 60`; when `blockTime` is unknown no freshness rejection
occurs.  The amendment (nonzero) is forced by the JavaScript truthiness test
`if (txTimestamp)` at verify-payment.ts line 97, which also skips the
freshness check when the known block time is exactly 0 — see the
counterexample. -/
theorem claim_freshness_amended (used : List String) (s : String) (e : ℚ)
    (r net : String) (now : Int) (tx : ParsedTransactionWithMeta) (mint : String)
    (hmem : s ∉ used) (hmint : USDC_MINTS net = some mint) (herr : metaErr tx = false) :
    (∀ t : Int, tx.blockTime = some t → t ≠ 0 →
      (((verifyPayment used s e r net now (FetchOutcome.fetched (some tx))).1.error =
          some VerifyError.transactionTooOld ↔ 300 < now - t)
       ∧ ((verifyPayment used s e r net now (FetchOutcome.fetched (some tx))).1.error =
          some VerifyError.transactionFromFuture ↔ 60 < t - now)))
  ∧ (tx.blockTime = none →
      (verifyPayment used s e r net now (FetchOutcome.fetched (some tx))).1.error ≠
        some VerifyError.transactionTooOld ∧
      (verifyPayment used s e r net now (FetchOutcome.fetched (some tx))).1.error ≠
        some VerifyError.transactionFromFuture) := by
  constructor
  · intro t ht htz
    by_cases hc1 : (300 : Int) < now - t
    · have hfr : freshnessCheck tx.blockTime now = some VerifyError.transactionTooOld := by
        rw [ht]
        simp [freshnessCheck, MAX_TX_AGE_SECONDS, htz, hc1]
      rw [verifyPayment_freshness_stop used s e r net now tx mint _ hmem hmint herr hfr]
      constructor
      · simp [hc1]
      · simp
        omega
    · by_cases hc2 : now - t < -60
      · have hfr : freshnessCheck tx.blockTime now = some VerifyError.transactionFromFuture := by
          rw [ht]
          simp [freshnessCheck, MAX_TX_AGE_SECONDS, htz, hc1, hc2]
        rw [verifyPayment_freshness_stop used s e r net now tx mint _ hmem hmint herr hfr]
        constructor
        · simp
          omega
        · simp
          omega
      · have hfr : freshnessCheck tx.blockTime now = none := by
          rw [ht]
          simp [freshnessCheck, MAX_TX_AGE_SECONDS, htz, hc1, hc2]
        rcases verify_error_after_fresh used s e r net now tx mint hmem hmint herr hfr with
          h | h | h <;>
          rw [h] <;> constructor <;> simp <;> omega
  · intro ht
    have hfr : freshnessCheck tx.blockTime now = none := by
      rw [ht]; simp [freshnessCheck]
    rcases verify_error_after_fresh used s e r net now tx mint hmem hmint herr hfr with
      h | h | h <;> rw [h] <;> simp

/-- C4 counterexample: a transaction with known `blockTime = 0` and
`now = 400` is 400 s old — beyond the 300 s window — yet `verifyPayment`
accepts it (`valid = true`, no error): the claim's "rejects with
TransactionTooOld iff now − blockTime > 300 for every known blockTime" fails
at `blockTime = 0`, because `if (txTimestamp)` treats 0 as absent. -/
theorem claim_freshness_counterexample :
    (sampleTransferTx (some 0) 50000).blockTime = some 0 ∧
    (300 : Int) < 400 - 0 ∧
    (verifyPayment [] ("SIGZ") (1/20) ("RECV") ("devnet") 400
      (FetchOutcome.fetched (some (sampleTransferTx (some 0) 50000)))).1.valid = true ∧
    (verifyPayment [] ("SIGZ") (1/20) ("RECV") ("devnet") 400
      (FetchOutcome.fetched (some (sampleTransferTx (some 0) 50000)))).1.error = none := by
  have h1 : findUSDCTransfer (sampleTransferTx (some 0) 50000) devnetMint ("RECV") =
      { found := true, sender := some ("SENDER"), receiver := some ("RECV"),
        amount := some 50000 } := by decide
  have hp := verifyPayment_pipeline [] ("SIGZ") (1/20) ("RECV") ("devnet") 400
    (sampleTransferTx (some 0) 50000) devnetMint (by simp) (by decide) (by decide) (by decide)
  refine ⟨rfl, by norm_num, ?_, ?_⟩ <;>
    rw [hp, h1] <;> norm_num

theorem claim_freshness_amended_witness :
    ((verifyPayment [] ("SIGW") (1/20) ("RECV") ("devnet") 401
        (FetchOutcome.fetched (some (sampleTransferTx (some 100) 50000)))).1.error =
      some VerifyError.transactionTooOld)
  ∧ ((verifyPayment [] ("SIGW") (1/20) ("RECV") ("devnet") 100
        (FetchOutcome.fetched (some (sampleTransferTx (some 161) 50000)))).1.error =
      some VerifyError.transactionFromFuture) := by
  constructor
  · exact ((claim_freshness_amended [] ("SIGW") (1/20) ("RECV") ("devnet") 401
      (sampleTransferTx (some 100) 50000) devnetMint (by simp) (by decide) (by decide)).1
      100 (by decide) (by decide)).1.mpr (by norm_num)
  · exact ((claim_freshness_amended [] ("SIGW") (1/20) ("RECV") ("devnet") 100
      (sampleTransferTx (some 161) 50000) devnetMint (by simp) (by decide) (by decide)).1
      161 (by decide) (by decide)).2.mpr (by norm_num)

/-- C5 (amended): every authorization credential whose extracted signature
(bearer prefix stripped, trimmed) is shorter than 80 characters — the empty
signature included — is rejected by the route with the structural 400 error,
without `verifyPayment` (and hence the ledger fetch) ever being invoked.
Over-long malformed signatures are *not* structurally rejected — see the
counterexample. -/
theorem claim_short_signature_rejected (h : String)
    (hshort : (jsTrim (stripBearer h)).length < 80) :
    routeAuth (some h) = RouteAction.invalidFormat := by
  unfold routeAuth
  have hc : ((jsTrim (stripBearer h)) == "" ||
      decide ((jsTrim (stripBearer h)).length < 80)) = true := by
    simp [hshort]
  simp only [hc, if_true]

theorem claim_short_signature_rejected_witness :
    routeAuth (some ("abc")) = RouteAction.invalidFormat :=
  claim_short_signature_rejected ("abc") (by decide)

set_option maxRecDepth 8000 in
/-- C5 counterexample: a 200-character signature is not of the ledger's
expected encoded length (a Solana signature base58-encodes to at most 88
characters), so the claim says it is rejected before any network call; the
route's only structural check is `length < 80`, so this signature proceeds to
on-chain verification and the ledger fetch is performed. -/
theorem claim_malformed_signature_counterexample :
    sig200 ≠ "" ∧ sig200.length = 200 ∧
    routeAuth (some sig200) = RouteAction.verifyProof sig200 := by
  refine ⟨by decide, by decide, by decide⟩

/-- C7: whenever the initial response of `pay` is a 402 whose parsed required
amount strictly exceeds `maxAmount`, the client fails locally with the
amount-exceeds-budget error and status 402, and `sendUSDCPayment` is never
invoked (the transfer-attempted flag of the run is `false`). -/
theorem claim_budget_guard (maxAmount : ℚ) (network : String) (r : HttpResponse)
    (info : PaymentInfo) (t : TransferOutcome) (retry : FetchResult)
    (h402 : r.status = 402) (hjson : r.jsonBody = some info)
    (hover : maxAmount < (parsePaymentRequirements network info).amount) :
    pay maxAmount network (FetchResult.resp r) t retry =
      ({ success := false,
         error := some (budgetExceededMsg (parsePaymentRequirements network info).amount maxAmount),
         status := 402 }, false) := by
  unfold pay
  simp [h402, hjson, hover]

theorem claim_budget_guard_witness :
    pay (3/100) ("devnet")
      (FetchResult.resp { status := 402, jsonBody := some { payment := some { amount := some (1/20) } } })
      (TransferOutcome.threw ("no transfer")) FetchResult.threw =
      ({ success := false, error := some (budgetExceededMsg (1/20) (3/100)),
         status := 402 }, false) := by
  have h := claim_budget_guard (3/100) ("devnet")
    { status := 402, jsonBody := some { payment := some { amount := some (1/20) } } }
    { payment := some { amount := some (1/20) } }
    (TransferOutcome.threw ("no transfer")) FetchResult.threw rfl rfl
    (by norm_num [parsePaymentRequirements])
  simpa [parsePaymentRequirements] using h

/-- C8 counterexample: a run of `pay` receives a 402 initial response (shown:
its status field is 402) and then the transfer step throws
(insufficient balance); the claim says the returned status reflects the 402
already reached, but the catch-all handler at AgentWallet.ts lines 228–232
returns status 0. -/
theorem claim_status_counterexample :
    ({ status := 402, jsonBody := some { payment := some { amount := some (1/20) } } } : HttpResponse).status = 402 ∧
    (pay (1/10) ("devnet")
      (FetchResult.resp { status := 402, jsonBody := some { payment := some { amount := some (1/20) } } })
      (TransferOutcome.threw ("Insufficient USDC balance"))
      (FetchResult.resp { status := 200 })).1.status = 0 ∧
    (pay (1/10) ("devnet")
      (FetchResult.resp { status := 402, jsonBody := some { payment := some { amount := some (1/20) } } })
      (TransferOutcome.threw ("Insufficient USDC balance"))
      (FetchResult.resp { status := 200 })).1.success = false := by
  refine ⟨rfl, ?_, ?_⟩ <;>
  · unfold pay
    norm_num [parsePaymentRequirements]

/-- C8 (amended): the status returned by `pay` is the status of the HTTP
response that determined the outcome — the initial response when it is not a
402 and its body parse completes, 402 itself on the local budget guard, the
retry response after a successful transfer when its body parse completes —
and it is 0 on every caught-exception path (initial fetch failure, body-parse
failure of a non-402 initial response, non-JSON 402 body, transfer failure,
retry fetch failure, or body-parse failure of the retry response — the last
also dropping the transaction signature), even when a 402 or another
response had already been received. -/
theorem claim_status_amended (maxAmount : ℚ) (network : String) (t : TransferOutcome)
    (retry : FetchResult) (r : HttpResponse) (info : PaymentInfo) :
    (pay maxAmount network FetchResult.threw t retry).1.status = 0
  ∧ (r.status ≠ 402 → r.parseThrows = false →
      (pay maxAmount network (FetchResult.resp r) t retry).1.status = r.status)
  ∧ (r.status ≠ 402 → r.parseThrows = true →
      (pay maxAmount network (FetchResult.resp r) t retry).1.status = 0)
  ∧ (r.status = 402 → r.jsonBody = none →
      (pay maxAmount network (FetchResult.resp r) t retry).1.status = 0)
  ∧ (r.status = 402 → r.jsonBody = some info →
      maxAmount < (parsePaymentRequirements network info).amount →
      (pay maxAmount network (FetchResult.resp r) t retry).1.status = 402)
  ∧ (r.status = 402 → r.jsonBody = some info →
      ¬ maxAmount < (parsePaymentRequirements network info).amount →
      ((∀ msg, t = TransferOutcome.threw msg →
          (pay maxAmount network (FetchResult.resp r) t retry).1.status = 0)
       ∧ (∀ sig, t = TransferOutcome.succeeded sig → retry = FetchResult.threw →
          (pay maxAmount network (FetchResult.resp r) t retry).1.status = 0)
       ∧ (∀ sig pr, t = TransferOutcome.succeeded sig → retry = FetchResult.resp pr →
          pr.parseThrows = true →
          (pay maxAmount network (FetchResult.resp r) t retry).1.status = 0 ∧
          (pay maxAmount network (FetchResult.resp r) t retry).1.txSignature = none)
       ∧ (∀ sig pr, t = TransferOutcome.succeeded sig → retry = FetchResult.resp pr →
          pr.parseThrows = false →
          (pay maxAmount network (FetchResult.resp r) t retry).1.status = pr.status))) := by
  refine ⟨by simp [pay], ?_, ?_, ?_, ?_, ?_⟩
  · intro hne hpt
    unfold pay
    simp [hne, hpt]
  · intro hne hpt
    unfold pay
    simp [hne, hpt]
  · intro h402 hnone
    unfold pay
    simp [h402, hnone]
  · intro h402 hsome hover
    unfold pay
    simp [h402, hsome, hover]
  · intro h402 hsome hnover
    refine ⟨?_, ?_, ?_, ?_⟩
    · intro msg hmsg
      unfold pay
      simp [h402, hsome, hnover, hmsg]
    · intro sig hsig hretry
      unfold pay
      simp [h402, hsome, hnover, hsig, hretry]
    · intro sig pr hsig hretry hpt
      unfold pay
      simp [h402, hsome, hnover, hsig, hretry, hpt]
    · intro sig pr hsig hretry hpt
      unfold pay
      simp [h402, hsome, hnover, hsig, hretry, hpt]

theorem claim_status_amended_witness :
    ((pay (1/10) ("devnet")
      (FetchResult.resp { status := 402, jsonBody := some { payment := some { amount := some (1/20) } } })
      (TransferOutcome.succeeded ("TXSIG"))
      (FetchResult.resp { status := 200 })).1.status = 200)
  ∧ ((pay (1/10) ("devnet")
      (FetchResult.resp { status := 402, jsonBody := some { payment := some { amount := some (1/20) } } })
      (TransferOutcome.succeeded ("TXSIG"))
      (FetchResult.resp { status := 200, jsonBody := none, parseThrows := true })).1.status = 0)
  ∧ ((pay (1/10) ("devnet")
      (FetchResult.resp { status := 500, jsonBody := none, parseThrows := true })
      (TransferOutcome.succeeded ("TXSIG"))
      (FetchResult.resp { status := 200 })).1.status = 0) :=
  ⟨((claim_status_amended (1/10) ("devnet") (TransferOutcome.succeeded ("TXSIG"))
      (FetchResult.resp { status := 200 })
      { status := 402, jsonBody := some { payment := some { amount := some (1/20) } } }
      { payment := some { amount := some (1/20) } }).2.2.2.2.2 rfl rfl
      (by norm_num [parsePaymentRequirements])).2.2.2 ("TXSIG") { status := 200 } rfl rfl rfl,
   (((claim_status_amended (1/10) ("devnet") (TransferOutcome.succeeded ("TXSIG"))
      (FetchResult.resp { status := 200, jsonBody := none, parseThrows := true })
      { status := 402, jsonBody := some { payment := some { amount := some (1/20) } } }
      { payment := some { amount := some (1/20) } }).2.2.2.2.2 rfl rfl
      (by norm_num [parsePaymentRequirements])).2.2.1 ("TXSIG")
      { status := 200, jsonBody := none, parseThrows := true } rfl rfl rfl).1,
   (claim_status_amended (1/10) ("devnet") (TransferOutcome.succeeded ("TXSIG"))
      (FetchResult.resp { status := 200 })
      { status := 500, jsonBody := none, parseThrows := true }
      { payment := some { amount := some (1/20) } }).2.2.1 (by decide) rfl⟩

end X402


